import Mathlib

/-!
Verification of the Gemini alert checker (src/main.py) against its
specification.  The Python source is shallowly embedded below:

* string-encoded decimal prices are modelled by the rational values they
  denote (ℚ); Python float arithmetic is modelled by exact arithmetic,
  with the square root taken in ℝ;
* the HTTP layer is modelled by passing an already-received response
  (status code plus decoded body) to each function;
* a Python dict ticker payload is modelled by a record of optional
  fields for the keys the program reads (open, close, changes);
* raising an exception is modelled by a distinguished result value
  (division by zero in calculate_standard_deviation, KeyError in the
  alert branch of process_currency_pair);
* printing and thread start/join are modelled by an event trace.
-/

namespace Gemini

/-- Module-level constant BASE_URL from src/main.py. -/
def BASE_URL : String := "https://api.gemini.com"

/-- Module-level constant DEFAULT_TIMEOUT from src/main.py. -/
def DEFAULT_TIMEOUT : ℕ := 10

/-- Module-level constant DEFAULT_CURRENCY from src/main.py. -/
def DEFAULT_CURRENCY : String := "ALL"

/-- Module-level constant DEFAULT_STANDARD_DEVIATION from src/main.py. -/
def DEFAULT_STANDARD_DEVIATION : ℚ := 1

/-- Module-level constant DEFAULT_LOG_LEVEL from src/main.py. -/
def DEFAULT_LOG_LEVEL : String := "INFO"

/-- An HTTP response as seen by the program: a status code and the decoded
body the response would yield.  The body type is the JSON shape the caller
expects. -/
structure HttpResponse (α : Type) where
  status_code : ℕ
  body : α

/-- The ticker payload returned by GET /v2/ticker/:pair, modelled by the
three dict keys the program reads.  A missing key is none.  The dict key
named open is modelled by the field open_ because open is a Lean keyword;
changes holds the list of hourly price samples, each string-encoded decimal
modelled by the rational it denotes. -/
structure TickerData where
  open_ : Option ℚ
  close : Option ℚ
  changes : Option (List ℚ)

/-- The empty dict returned by get_ticker_data on a non-200 status. -/
def emptyTicker : TickerData := ⟨none, none, none⟩

/-- The Python truthiness test not ticker_data: a dict is falsy exactly
when it has no keys, i.e. all modelled fields are absent. -/
def TickerData.isEmptyDict (t : TickerData) : Prop :=
  t.open_ = none ∧ t.close = none ∧ t.changes = none

instance (t : TickerData) : Decidable t.isEmptyDict := by
  unfold TickerData.isEmptyDict; infer_instance

/-- Embedding of get_currency_pairs (src/main.py lines 40-62): on HTTP 200
return the decoded JSON list, otherwise return the empty list.  The debug
prints affect no control flow and are not modelled.  The function is total:
no exception reaches the caller. -/
def get_currency_pairs (response : HttpResponse (List String)) : List String :=
  if response.status_code = 200 then response.body else []

/-- Embedding of get_ticker_data (src/main.py lines 65-88): on HTTP 200
return the decoded JSON object, otherwise return the empty dict.  The debug
prints affect no control flow and are not modelled.  The function is total:
no exception reaches the caller. -/
def get_ticker_data (response : HttpResponse TickerData) : TickerData :=
  if response.status_code = 200 then response.body else emptyTicker

/-- The mean computed at line 103 of src/main.py: sum of the prices divided
by their count. -/
def mean (prices : List ℚ) : ℚ := prices.sum / prices.length

/-- The squared deviations from the mean computed at line 104 of
src/main.py. -/
def squared_diffs (prices : List ℚ) : List ℚ :=
  prices.map (fun price => (price - mean prices) ^ 2)

/-- The population variance computed at line 105 of src/main.py: sum of the
squared deviations divided by the count (divisor is the count, not the
count minus one). -/
def variance (prices : List ℚ) : ℚ :=
  (squared_diffs prices).sum / prices.length

/-- Embedding of calculate_standard_deviation (src/main.py lines 91-112).
On the empty list Python raises ZeroDivisionError at the mean computation;
that fault is modelled by none.  Otherwise the result is the square root of
the population variance.  The debug prints affect no control flow and are
not modelled. -/
noncomputable def calculate_standard_deviation (prices : List ℚ) : Option ℝ :=
  if prices.isEmpty then none
  else some (Real.sqrt ((variance prices : ℚ) : ℝ))

/-- On a non-empty list, calculate_standard_deviation returns the square
root of the variance. -/
theorem calculate_standard_deviation_of_ne_nil {prices : List ℚ}
    (h : prices ≠ []) :
    calculate_standard_deviation prices
      = some (Real.sqrt ((variance prices : ℚ) : ℝ)) := by
  unfold calculate_standard_deviation
  simp [List.isEmpty_iff, h]

/-- Helper: the sum of a list all of whose elements equal c. -/
theorem list_sum_of_all_eq {l : List ℚ} {c : ℚ} (h : ∀ x ∈ l, x = c) :
    l.sum = (l.length : ℚ) * c := by
  induction l with
  | nil => simp
  | cons a t ih =>
      have ha : a = c := h a (by simp)
      have ht : ∀ x ∈ t, x = c := fun x hx => h x (by simp [hx])
      simp [ha, ih ht]
      ring

/-- Helper: the mean of a non-empty constant list is that constant. -/
theorem mean_of_constant {l : List ℚ} {c : ℚ} (hne : l ≠ [])
    (h : ∀ x ∈ l, x = c) : mean l = c := by
  have hlen : (l.length : ℚ) ≠ 0 := by
    exact_mod_cast fun hl => hne (List.length_eq_zero.mp hl)
  unfold mean
  rw [list_sum_of_all_eq h, mul_comm, mul_div_assoc, div_self hlen, mul_one]

/-- Helper: the variance of a non-empty constant list is zero. -/
theorem variance_of_constant {l : List ℚ} {c : ℚ} (hne : l ≠ [])
    (h : ∀ x ∈ l, x = c) : variance l = 0 := by
  have hmean : mean l = c := mean_of_constant hne h
  have hsum : (squared_diffs l).sum = 0 := by
    apply List.sum_eq_zero
    intro y hy
    rcases List.mem_map.mp hy with ⟨x, hx, rfl⟩
    rw [hmean, h x hx]
    ring
  unfold variance
  rw [hsum, zero_div]

/-- Claim C2: on the example input (the numeric strings converted to the
rationals 1, 2, 3) the mean is 2, the population variance is 2/3 (divisor
is the count 3, not 2), and the returned value is the square root of 2/3,
which lies strictly between 0.8164 and 0.8166, so is approximately
0.8165. -/
theorem C2_example_values :
    mean [1, 2, 3] = 2 ∧ variance [1, 2, 3] = 2 / 3 ∧
    calculate_standard_deviation [1, 2, 3]
      = some (Real.sqrt ((2 : ℝ) / 3)) ∧
    (0.8164 : ℝ) < Real.sqrt ((2 : ℝ) / 3) ∧
    Real.sqrt ((2 : ℝ) / 3) < (0.8166 : ℝ) := by
  have hmean : mean [1, 2, 3] = 2 := by
    norm_num [mean]
  have hvar : variance [1, 2, 3] = 2 / 3 := by
    norm_num [variance, squared_diffs, hmean]
  refine ⟨hmean, hvar, ?_, ?_, ?_⟩
  · rw [calculate_standard_deviation_of_ne_nil (by simp), hvar]
    norm_num
  · rw [Real.lt_sqrt (by norm_num)]
    norm_num
  · rw [Real.sqrt_lt' (by norm_num)]
    norm_num

/-- Claim C6: on every non-empty price list the computation succeeds and
the returned standard deviation is non-negative. -/
theorem C6_sdev_nonneg (prices : List ℚ) (hne : prices ≠ []) :
    ∃ s : ℝ, calculate_standard_deviation prices = some s ∧ 0 ≤ s := by
  refine ⟨Real.sqrt ((variance prices : ℚ) : ℝ),
    calculate_standard_deviation_of_ne_nil hne, Real.sqrt_nonneg _⟩

/-- Witness for C6 at the concrete input 1, 2, 3. -/
theorem C6_sdev_nonneg_witness :
    ∃ s : ℝ, calculate_standard_deviation [1, 2, 3] = some s ∧ 0 ≤ s :=
  C6_sdev_nonneg [1, 2, 3] (by simp)

/-- Claim C7: on every non-empty constant price list (all elements equal)
the returned standard deviation is exactly zero. -/
theorem C7_constant_zero (l : List ℚ) (c : ℚ) (hne : l ≠ [])
    (h : ∀ x ∈ l, x = c) :
    calculate_standard_deviation l = some 0 := by
  rw [calculate_standard_deviation_of_ne_nil hne, variance_of_constant hne h]
  norm_num

/-- Witness for C7 at the concrete constant input 5, 5, 5. -/
theorem C7_constant_zero_witness :
    calculate_standard_deviation [5, 5, 5] = some 0 :=
  C7_constant_zero [5, 5, 5] 5 (by simp) (by intro x hx; simpa using hx)

/-- The alert record printed at line 147 of src/main.py.  The wall-clock
timestamp is not modelled; the two-decimal string formatting of average
and change is not modelled (the exact rational values are kept); the dict
key named deviation (always True) is the field deviation_flag. -/
structure AlertRecord where
  level : String
  trading_pair : String
  deviation_flag : Bool
  last_price : ℚ
  average : ℚ
  change : ℚ
  sdev : ℝ

/-- The observable outcome of one run of the per-pair evaluation body
(src/main.py lines 130-147): return with only an optional debug print
(noData), return with no output (noOutput), raise ZeroDivisionError inside
calculate_standard_deviation (divZeroFault), raise KeyError reading the
open or close key in the alert branch (keyFault), or print an alert
record. -/
inductive ProcResult where
  | noData
  | noOutput
  | divZeroFault
  | keyFault
  | alert (a : AlertRecord)

/-- Embedding of the body of process_currency_pair after the fetch
(src/main.py lines 132-147), taking the fetched ticker dict directly.
The guard at line 132 tests the dict for emptiness or a missing changes
key; since a dict containing the changes key is non-empty, the guard
fires exactly when changes is absent (lemma process_guard_equiv below).
If the standard deviation exceeds the threshold, the alert branch reads
the close and open keys (lines 139-146); if either is missing, Python
raises KeyError, modelled by keyFault.  The average at line 139 is
recomputed inline as the sum of changes divided by its length. -/
noncomputable def process_ticker (currency_pair : String)
    (ticker_data : TickerData) (deviation : ℚ) (log_level : String) :
    ProcResult :=
  match ticker_data.changes with
  | none => .noData
  | some changes =>
    match calculate_standard_deviation changes with
    | none => .divZeroFault
    | some standard_deviation =>
      if (deviation : ℝ) < standard_deviation then
        match ticker_data.close, ticker_data.open_ with
        | some c, some o =>
          .alert { level := log_level, trading_pair := currency_pair,
                   deviation_flag := true, last_price := c,
                   average := changes.sum / (changes.length : ℚ),
                   change := c - o, sdev := standard_deviation }
        | _, _ => .keyFault
      else .noOutput

/-- Embedding of process_currency_pair (src/main.py lines 115-147): fetch
the ticker for the pair, then run the evaluation body on the fetched
dict. -/
noncomputable def process_currency_pair (currency_pair : String)
    (response : HttpResponse TickerData) (deviation : ℚ)
    (log_level : String) : ProcResult :=
  process_ticker currency_pair (get_ticker_data response) deviation log_level

/-- The guard at line 132 of src/main.py (dict empty, or changes key
absent) is equivalent to the changes key being absent, because a dict
holding the changes key is non-empty. -/
theorem process_guard_equiv (t : TickerData) :
    (t.isEmptyDict ∨ t.changes = none) ↔ t.changes = none := by
  unfold TickerData.isEmptyDict
  constructor
  · rintro (⟨-, -, h⟩ | h) <;> exact h
  · exact Or.inr

/-- Evaluation of process_ticker when the changes key is absent: the guard
at line 132 fires and the body returns with no alert. -/
theorem process_ticker_none (p : String) (o c : Option ℚ) (d : ℚ)
    (l : String) :
    process_ticker p ⟨o, c, none⟩ d l = .noData := rfl

/-- Evaluation of process_ticker when the changes key is present, exposing
the remaining control flow on the standard-deviation computation. -/
theorem process_ticker_some (p : String) (o c : Option ℚ) (ch : List ℚ)
    (d : ℚ) (l : String) :
    process_ticker p ⟨o, c, some ch⟩ d l =
      match calculate_standard_deviation ch with
      | none => .divZeroFault
      | some s =>
        if (d : ℝ) < s then
          match c, o with
          | some cv, some ov =>
            .alert { level := l, trading_pair := p, deviation_flag := true,
                     last_price := cv, average := ch.sum / (ch.length : ℚ),
                     change := cv - ov, sdev := s }
          | _, _ => .keyFault
        else .noOutput := rfl

/-- Claim C1 counterexample: for the snapshot with changes mapped to the
values 0, 2 and no open or close key, and threshold 1/2, the claimed alert
condition holds (changes present and non-empty, standard deviation 1
exceeds 1/2), yet no alert is printed: the evaluation raises KeyError in
the alert branch. -/
theorem C1_counterexample :
    calculate_standard_deviation [0, 2] = some 1 ∧
    (((1 : ℚ) / 2 : ℚ) : ℝ) < 1 ∧
    process_ticker "btcusd" ⟨none, none, some [0, 2]⟩ (1 / 2) "INFO"
      = .keyFault ∧
    ∀ a, process_ticker "btcusd" ⟨none, none, some [0, 2]⟩ (1 / 2) "INFO"
      ≠ .alert a := by
  have hsd : calculate_standard_deviation [0, 2] = some 1 := by
    rw [calculate_standard_deviation_of_ne_nil (by simp)]
    have hvar : variance [0, 2] = 1 := by
      norm_num [variance, squared_diffs, mean]
    rw [hvar]
    norm_num
  have hlt : (((1 : ℚ) / 2 : ℚ) : ℝ) < 1 := by norm_num
  have hrun : process_ticker "btcusd" ⟨none, none, some [0, 2]⟩ (1 / 2)
      "INFO" = .keyFault := by
    rw [process_ticker_some, hsd]
    simp only
    rw [if_pos hlt]
  refine ⟨hsd, hlt, hrun, ?_⟩
  intro a
  rw [hrun]
  intro hcontra
  exact ProcResult.noConfusion hcontra

/-- Claim C1 amended: an alert record is printed if and only if the
snapshot has a non-empty changes field, the computed standard deviation
strictly exceeds the threshold, and the open and close keys are both
present; and the evaluation returns silently with no output exactly when
changes is present, the standard deviation computation succeeds, and its
value does not exceed the threshold. -/
theorem C1_alert_iff (p : String) (t : TickerData) (d : ℚ) (l : String) :
    ((∃ a, process_ticker p t d l = .alert a) ↔
      (∃ ch, t.changes = some ch ∧ ch ≠ [] ∧
        (∃ s, calculate_standard_deviation ch = some s ∧ (d : ℝ) < s) ∧
        t.open_ ≠ none ∧ t.close ≠ none)) ∧
    (process_ticker p t d l = .noOutput ↔
      (∃ ch s, t.changes = some ch ∧ calculate_standard_deviation ch = some s
        ∧ s ≤ (d : ℝ))) := by
  obtain ⟨o, c, chs⟩ := t
  cases chs with
  | none =>
      rw [process_ticker_none]
      constructor
      · constructor
        · rintro ⟨a, ha⟩
          exact ProcResult.noConfusion ha
        · rintro ⟨ch, hch, -⟩
          exact Option.noConfusion hch
      · constructor
        · intro ha
          exact ProcResult.noConfusion ha
        · rintro ⟨ch, s, hch, -⟩
          exact Option.noConfusion hch
  | some ch =>
    rw [process_ticker_some]
    by_cases hch : ch = []
    · subst hch
      have hnone : calculate_standard_deviation ([] : List ℚ) = none := by
        simp [calculate_standard_deviation]
      rw [hnone]
      constructor
      · constructor
        · rintro ⟨a, ha⟩
          exact ProcResult.noConfusion ha
        · rintro ⟨ch1, hch1, hne, -⟩
          exact (hne (Option.some_inj.mp hch1.symm)).elim
      · constructor
        · intro ha
          exact ProcResult.noConfusion ha
        · rintro ⟨ch1, s, hch1, hs, -⟩
          rw [Option.some_inj.mp hch1.symm] at hs
          rw [hnone] at hs
          exact Option.noConfusion hs
    · have hsd := calculate_standard_deviation_of_ne_nil hch
      rw [hsd]
      simp only
      by_cases hgt : (d : ℝ) < Real.sqrt ((variance ch : ℚ) : ℝ)
      · rw [if_pos hgt]
        constructor
        · constructor
          · intro hex
            match c, o, hex with
            | some cv, some ov, _ =>
              exact ⟨ch, rfl, hch, ⟨_, hsd, hgt⟩, by simp, by simp⟩
            | some cv, none, ⟨a, ha⟩ => exact ProcResult.noConfusion ha
            | none, some ov, ⟨a, ha⟩ => exact ProcResult.noConfusion ha
            | none, none, ⟨a, ha⟩ => exact ProcResult.noConfusion ha
          · rintro ⟨ch1, hch1, -, -, ho, hc⟩
            match c, o, ho, hc with
            | some cv, some ov, _, _ => exact ⟨_, rfl⟩
            | some cv, none, ho, _ => exact absurd rfl ho
            | none, _, _, hc => exact absurd rfl hc
        · constructor
          · intro ha
            match c, o, ha with
            | some cv, some ov, ha => exact ProcResult.noConfusion ha
            | some cv, none, ha => exact ProcResult.noConfusion ha
            | none, some ov, ha => exact ProcResult.noConfusion ha
            | none, none, ha => exact ProcResult.noConfusion ha
          · rintro ⟨ch1, s, hch1, hs, hle⟩
            rw [Option.some_inj.mp hch1.symm, hsd] at hs
            rw [← Option.some_inj.mp hs] at hle
            exact absurd hgt (not_lt.mpr hle)
      · rw [if_neg hgt]
        constructor
        · constructor
          · rintro ⟨a, ha⟩
            exact ProcResult.noConfusion ha
          · rintro ⟨ch1, hch1, -, ⟨s, hs, hds⟩, -⟩
            rw [Option.some_inj.mp hch1.symm, hsd] at hs
            rw [← Option.some_inj.mp hs] at hds
            exact absurd hds hgt
        · constructor
          · exact fun _ => ⟨ch, _, rfl, hsd, not_lt.mp hgt⟩
          · exact fun _ => rfl

/-- Claim C5 counterexample: the snapshot whose changes key maps to the
empty list passes the guard at line 132 (the dict is non-empty and the
changes key is present), so calculate_standard_deviation is invoked on an
empty list and the division-by-zero fault is reached from the evaluation
body. -/
theorem C5_counterexample :
    calculate_standard_deviation [] = none ∧
    ¬ ((⟨none, none, some []⟩ : TickerData).isEmptyDict ∨
        (⟨none, none, some []⟩ : TickerData).changes = none) ∧
    process_ticker "btcusd" ⟨none, none, some []⟩ 1 "INFO"
      = .divZeroFault := by
  have hnone : calculate_standard_deviation ([] : List ℚ) = none := by
    simp [calculate_standard_deviation]
  refine ⟨hnone, ?_, ?_⟩
  · rintro (⟨-, -, h⟩ | h) <;> exact Option.noConfusion h
  · rw [process_ticker_some, hnone]

/-- Claim C5 amended: the guard at line 132 only protects against a
missing changes key (or an empty snapshot); a present-but-empty changes
list passes the guard and reaches the division-by-zero fault inside
calculate_standard_deviation.  The fault occurs exactly when the snapshot
maps changes to the empty list. -/
theorem C5_divzero_iff (p : String) (t : TickerData) (d : ℚ) (l : String) :
    process_ticker p t d l = .divZeroFault ↔ t.changes = some [] := by
  obtain ⟨o, c, chs⟩ := t
  cases chs with
  | none =>
      rw [process_ticker_none]
      constructor
      · intro h
        exact ProcResult.noConfusion h
      · intro h
        exact Option.noConfusion h
  | some ch =>
    rw [process_ticker_some]
    by_cases hch : ch = []
    · subst hch
      have hnone : calculate_standard_deviation ([] : List ℚ) = none := by
        simp [calculate_standard_deviation]
      rw [hnone]
      simp
    · rw [calculate_standard_deviation_of_ne_nil hch]
      simp only
      constructor
      · intro h
        by_cases hgt : (d : ℝ) < Real.sqrt ((variance ch : ℚ) : ℝ)
        · rw [if_pos hgt] at h
          match c, o, h with
          | some cv, some ov, h => exact ProcResult.noConfusion h
          | some cv, none, h => exact ProcResult.noConfusion h
          | none, some ov, h => exact ProcResult.noConfusion h
          | none, none, h => exact ProcResult.noConfusion h
        · rw [if_neg hgt] at h
          exact ProcResult.noConfusion h
      · intro h
        exact absurd (Option.some_inj.mp h) hch

/-- Claim C10: on a snapshot whose changes key holds a non-empty list but
which lacks the open key or the close key, the evaluation body completes
normally with no output whenever the computed standard deviation does not
exceed the threshold: the open and close keys are only read inside the
alert branch. -/
theorem C10_below_threshold_no_fault (p : String) (t : TickerData) (d : ℚ)
    (l : String) (ch : List ℚ) (s : ℝ) (hch : t.changes = some ch)
    (hne : ch ≠ []) (hmiss : t.open_ = none ∨ t.close = none)
    (hs : calculate_standard_deviation ch = some s) (hle : s ≤ (d : ℝ)) :
    process_ticker p t d l = .noOutput := by
  obtain ⟨o, c, chs⟩ := t
  cases chs with
  | none => exact Option.noConfusion hch
  | some ch1 =>
      have hch1 : ch1 = ch := Option.some_inj.mp hch
      subst hch1
      rw [process_ticker_some, hs]
      simp only
      rw [if_neg (not_lt.mpr hle)]

/-- Witness for C10 at the concrete snapshot with changes 1, 1, no open
and no close key, and threshold 1. -/
theorem C10_below_threshold_no_fault_witness :
    process_ticker "btcusd" ⟨none, none, some [1, 1]⟩ 1 "INFO"
      = .noOutput := by
  have hs : calculate_standard_deviation [1, 1] = some 0 := by
    rw [calculate_standard_deviation_of_ne_nil (by simp)]
    have hvar : variance [1, 1] = 0 := by
      norm_num [variance, squared_diffs, mean]
    rw [hvar]
    norm_num
  exact C10_below_threshold_no_fault "btcusd" ⟨none, none, some [1, 1]⟩ 1
    "INFO" [1, 1] 0 rfl (by simp) (Or.inl rfl) hs (by norm_num)

/-- The arguments a thread is created with at line 179 of src/main.py:
the target procedure process_currency_pair applied to the pair and the
shared deviation threshold, log level and debug flag. -/
structure ThreadSpec where
  pair : String
  deviation : ℚ
  log_level : String
  debug : Bool
deriving DecidableEq

/-- The observable steps of check_currency (src/main.py lines 150-184):
printing the no-pairs message, printing the invalid-pair message, starting
a thread, and joining a thread.  The trace lists them in program order. -/
inductive DriverEvent where
  | printNoPairs
  | printInvalidPair (currency : String)
  | startThread (t : ThreadSpec)
  | joinThread (t : ThreadSpec)
deriving DecidableEq

/-- Embedding of check_currency (src/main.py lines 150-184) as the trace
of observable steps it performs, given the HTTP response the symbols
request would receive.  The first loop starts one thread per pair in
available_pairs; the second loop joins each of them in the same order. -/
def check_currency (symbols : HttpResponse (List String))
    (currency : String) (deviation : ℚ) (log_level : String)
    (debug : Bool) : List DriverEvent :=
  let available_pairs := get_currency_pairs symbols
  if available_pairs = [] then [.printNoPairs]
  else if currency ≠ "ALL" ∧ currency ∉ available_pairs then
    [.printInvalidPair currency]
  else
    let pairs := if currency = "ALL" then available_pairs else [currency]
    pairs.map (fun p => .startThread ⟨p, deviation, log_level, debug⟩)
      ++ pairs.map (fun p => .joinThread ⟨p, deviation, log_level, debug⟩)

/-- The pair set check_currency resolves, written out as a standalone
function following the spec's resolvePairs (section 4.4): none on the
terminal no-pairs and invalid-pair paths, otherwise the list of pairs the
driver will evaluate. -/
def resolvePairs (available : List String) (currency : String) :
    Option (List String) :=
  if available = [] then none
  else if currency = "ALL" then some available
  else if currency ∈ available then some [currency]
  else none

/-- The threads started in a driver trace, in order. -/
def startSpecs (events : List DriverEvent) : List ThreadSpec :=
  events.filterMap fun e =>
    match e with
    | .startThread t => some t
    | _ => none

/-- The threads joined in a driver trace, in order. -/
def joinSpecs (events : List DriverEvent) : List ThreadSpec :=
  events.filterMap fun e =>
    match e with
    | .joinThread t => some t
    | _ => none

/-- Helper: a start-thread loop contributes one started thread per
pair. -/
theorem startSpecs_startMap (pairs : List String) (f : String → ThreadSpec) :
    startSpecs (pairs.map fun p => .startThread (f p)) = pairs.map f := by
  induction pairs with
  | nil => rfl
  | cons a t ih => simpa [startSpecs] using ih

/-- Helper: a join-thread loop contributes no started thread. -/
theorem startSpecs_joinMap (pairs : List String) (f : String → ThreadSpec) :
    startSpecs (pairs.map fun p => .joinThread (f p)) = [] := by
  induction pairs with
  | nil => rfl
  | cons a t _ => simp [startSpecs]

/-- Helper: a start-thread loop contributes no joined thread. -/
theorem joinSpecs_startMap (pairs : List String) (f : String → ThreadSpec) :
    joinSpecs (pairs.map fun p => .startThread (f p)) = [] := by
  induction pairs with
  | nil => rfl
  | cons a t _ => simp [joinSpecs]

/-- Helper: a join-thread loop contributes one joined thread per pair. -/
theorem joinSpecs_joinMap (pairs : List String) (f : String → ThreadSpec) :
    joinSpecs (pairs.map fun p => .joinThread (f p)) = pairs.map f := by
  induction pairs with
  | nil => rfl
  | cons a t ih => simpa [joinSpecs] using ih

/-- Helper: the threads started in the trace built by the two loops of
check_currency are exactly one per resolved pair. -/
theorem startSpecs_trace (pairs : List String) (d : ℚ) (l : String)
    (dbg : Bool) :
    startSpecs
      (pairs.map (fun p => .startThread ⟨p, d, l, dbg⟩)
        ++ pairs.map (fun p => .joinThread ⟨p, d, l, dbg⟩))
      = pairs.map (fun p => ⟨p, d, l, dbg⟩) := by
  unfold startSpecs
  rw [List.filterMap_append]
  rw [show (List.filterMap _ (pairs.map fun p =>
      DriverEvent.startThread ⟨p, d, l, dbg⟩)) =
    pairs.map (fun p => (⟨p, d, l, dbg⟩ : ThreadSpec)) from
      startSpecs_startMap pairs _]
  rw [show (List.filterMap _ (pairs.map fun p =>
      DriverEvent.joinThread ⟨p, d, l, dbg⟩)) = ([] : List ThreadSpec) from
      startSpecs_joinMap pairs _]
  rw [List.append_nil]

/-- Helper: the threads joined in the trace built by the two loops of
check_currency are exactly one per resolved pair. -/
theorem joinSpecs_trace (pairs : List String) (d : ℚ) (l : String)
    (dbg : Bool) :
    joinSpecs
      (pairs.map (fun p => .startThread ⟨p, d, l, dbg⟩)
        ++ pairs.map (fun p => .joinThread ⟨p, d, l, dbg⟩))
      = pairs.map (fun p => ⟨p, d, l, dbg⟩) := by
  unfold joinSpecs
  rw [List.filterMap_append]
  rw [show (List.filterMap _ (pairs.map fun p =>
      DriverEvent.startThread ⟨p, d, l, dbg⟩)) = ([] : List ThreadSpec) from
      joinSpecs_startMap pairs _]
  rw [show (List.filterMap _ (pairs.map fun p =>
      DriverEvent.joinThread ⟨p, d, l, dbg⟩)) =
    pairs.map (fun p => (⟨p, d, l, dbg⟩ : ThreadSpec)) from
      joinSpecs_joinMap pairs _]
  rw [List.nil_append]

/-- Claim C3: check_currency prints the no-pairs message and starts no
thread when the pair list comes back empty; evaluates the full list when
the requested pair is ALL; evaluates exactly the single requested pair
when it is a member of the list; and prints the invalid-pair message and
starts no thread otherwise. -/
theorem C3_pair_resolution (symbols : HttpResponse (List String))
    (currency : String) (d : ℚ) (l : String) (dbg : Bool) :
    (get_currency_pairs symbols = [] →
      check_currency symbols currency d l dbg = [.printNoPairs] ∧
      startSpecs (check_currency symbols currency d l dbg) = []) ∧
    (get_currency_pairs symbols ≠ [] → currency = "ALL" →
      startSpecs (check_currency symbols currency d l dbg)
        = (get_currency_pairs symbols).map (fun p => ⟨p, d, l, dbg⟩)) ∧
    (get_currency_pairs symbols ≠ [] → currency ≠ "ALL" →
      currency ∈ get_currency_pairs symbols →
      startSpecs (check_currency symbols currency d l dbg)
        = [⟨currency, d, l, dbg⟩]) ∧
    (get_currency_pairs symbols ≠ [] → currency ≠ "ALL" →
      currency ∉ get_currency_pairs symbols →
      check_currency symbols currency d l dbg
        = [.printInvalidPair currency] ∧
      startSpecs (check_currency symbols currency d l dbg) = []) := by
  refine ⟨?_, ?_, ?_, ?_⟩
  · intro h
    have htr : check_currency symbols currency d l dbg = [.printNoPairs] := by
      unfold check_currency
      rw [if_pos h]
    exact ⟨htr, by rw [htr]; rfl⟩
  · intro h1 h2
    subst h2
    have htr : check_currency symbols "ALL" d l dbg =
        (get_currency_pairs symbols).map
            (fun p => .startThread ⟨p, d, l, dbg⟩)
          ++ (get_currency_pairs symbols).map
            (fun p => .joinThread ⟨p, d, l, dbg⟩) := by
      unfold check_currency
      rw [if_neg h1, if_neg (by simp), if_pos rfl]
    rw [htr, startSpecs_trace]
  · intro h1 h2 h3
    have htr : check_currency symbols currency d l dbg =
        [currency].map (fun p => .startThread ⟨p, d, l, dbg⟩)
          ++ [currency].map (fun p => .joinThread ⟨p, d, l, dbg⟩) := by
      unfold check_currency
      rw [if_neg h1, if_neg (by simp [h3]), if_neg h2]
    rw [htr, startSpecs_trace]
    rfl
  · intro h1 h2 h3
    have htr : check_currency symbols currency d l dbg
        = [.printInvalidPair currency] := by
      unfold check_currency
      rw [if_neg h1, if_pos ⟨h2, h3⟩]
    exact ⟨htr, by rw [htr]; rfl⟩

/-- Witness for C3 at concrete responses: a failed symbols request (so the
pair list is empty), and a successful one listing btcusd and ethusd, with
the requested pair ALL, a member, and a non-member in turn. -/
theorem C3_pair_resolution_witness :
    (check_currency ⟨500, ["btcusd"]⟩ "ALL" 1 "INFO" false
        = [.printNoPairs] ∧
      startSpecs (check_currency ⟨500, ["btcusd"]⟩ "ALL" 1 "INFO" false)
        = []) ∧
    startSpecs
        (check_currency ⟨200, ["btcusd", "ethusd"]⟩ "ALL" 1 "INFO" false)
      = [⟨"btcusd", 1, "INFO", false⟩, ⟨"ethusd", 1, "INFO", false⟩] ∧
    startSpecs
        (check_currency ⟨200, ["btcusd", "ethusd"]⟩ "ethusd" 1 "INFO" false)
      = [⟨"ethusd", 1, "INFO", false⟩] ∧
    (check_currency ⟨200, ["btcusd", "ethusd"]⟩ "dogeusd" 1 "INFO" false
        = [.printInvalidPair "dogeusd"] ∧
      startSpecs
          (check_currency ⟨200, ["btcusd", "ethusd"]⟩ "dogeusd" 1 "INFO"
            false)
        = []) :=
  ⟨(C3_pair_resolution ⟨500, ["btcusd"]⟩ "ALL" 1 "INFO" false).1 rfl,
   (C3_pair_resolution ⟨200, ["btcusd", "ethusd"]⟩ "ALL" 1 "INFO"
      false).2.1 (by decide) rfl,
   (C3_pair_resolution ⟨200, ["btcusd", "ethusd"]⟩ "ethusd" 1 "INFO"
      false).2.2.1 (by decide) (by decide) (by decide),
   (C3_pair_resolution ⟨200, ["btcusd", "ethusd"]⟩ "dogeusd" 1 "INFO"
      false).2.2.2 (by decide) (by decide) (by decide)⟩

/-- Claim C8: whenever the pair set resolves to ps, the driver trace is
exactly one thread start per pair followed by one join per pair: the
number of started threads equals the number of resolved pairs, every
started thread carries the same deviation threshold, log level and debug
flag, the joined threads are exactly the started threads, and the joins
all come after the starts, so the driver returns only after joining every
started thread. -/
theorem C8_fanout (symbols : HttpResponse (List String))
    (currency : String) (d : ℚ) (l : String) (dbg : Bool)
    (ps : List String)
    (hres : resolvePairs (get_currency_pairs symbols) currency = some ps) :
    check_currency symbols currency d l dbg
      = ps.map (fun p => .startThread ⟨p, d, l, dbg⟩)
        ++ ps.map (fun p => .joinThread ⟨p, d, l, dbg⟩) ∧
    (startSpecs (check_currency symbols currency d l dbg)).length
      = ps.length ∧
    joinSpecs (check_currency symbols currency d l dbg)
      = startSpecs (check_currency symbols currency d l dbg) ∧
    ∀ t ∈ startSpecs (check_currency symbols currency d l dbg),
      t.deviation = d ∧ t.log_level = l ∧ t.debug = dbg := by
  have htr : check_currency symbols currency d l dbg
      = ps.map (fun p => .startThread ⟨p, d, l, dbg⟩)
        ++ ps.map (fun p => .joinThread ⟨p, d, l, dbg⟩) := by
    unfold resolvePairs at hres
    by_cases h1 : get_currency_pairs symbols = []
    · rw [if_pos h1] at hres
      exact Option.noConfusion hres
    · rw [if_neg h1] at hres
      by_cases h2 : currency = "ALL"
      · rw [if_pos h2] at hres
        have hps : ps = get_currency_pairs symbols :=
          (Option.some_inj.mp hres).symm
        subst hps
        subst h2
        unfold check_currency
        rw [if_neg h1, if_neg (by simp), if_pos rfl]
      · rw [if_neg h2] at hres
        by_cases h3 : currency ∈ get_currency_pairs symbols
        · rw [if_pos h3] at hres
          have hps : ps = [currency] := (Option.some_inj.mp hres).symm
          subst hps
          unfold check_currency
          rw [if_neg h1, if_neg (by simp [h3]), if_neg h2]
        · rw [if_neg h3] at hres
          exact Option.noConfusion hres
  refine ⟨htr, ?_, ?_, ?_⟩
  · rw [htr, startSpecs_trace, List.length_map]
  · rw [htr, startSpecs_trace, joinSpecs_trace]
  · rw [htr, startSpecs_trace]
    intro t ht
    rcases List.mem_map.mp ht with ⟨p, -, rfl⟩
    exact ⟨rfl, rfl, rfl⟩

/-- Witness for C8 at a concrete successful symbols response listing two
pairs, requested pair ALL: two starts followed by the two matching
joins. -/
theorem C8_fanout_witness :
    check_currency ⟨200, ["btcusd", "ethusd"]⟩ "ALL" 1 "INFO" false
      = [.startThread ⟨"btcusd", 1, "INFO", false⟩,
         .startThread ⟨"ethusd", 1, "INFO", false⟩,
         .joinThread ⟨"btcusd", 1, "INFO", false⟩,
         .joinThread ⟨"ethusd", 1, "INFO", false⟩] ∧
    (startSpecs
        (check_currency ⟨200, ["btcusd", "ethusd"]⟩ "ALL" 1 "INFO"
          false)).length = 2 ∧
    joinSpecs (check_currency ⟨200, ["btcusd", "ethusd"]⟩ "ALL" 1 "INFO"
        false)
      = startSpecs (check_currency ⟨200, ["btcusd", "ethusd"]⟩ "ALL" 1
        "INFO" false) :=
  ⟨(C8_fanout ⟨200, ["btcusd", "ethusd"]⟩ "ALL" 1 "INFO" false
      ["btcusd", "ethusd"] (by decide)).1,
   (C8_fanout ⟨200, ["btcusd", "ethusd"]⟩ "ALL" 1 "INFO" false
      ["btcusd", "ethusd"] (by decide)).2.1,
   (C8_fanout ⟨200, ["btcusd", "ethusd"]⟩ "ALL" 1 "INFO" false
      ["btcusd", "ethusd"] (by decide)).2.2.1⟩

/-- Claim C4: on any non-200 status get_currency_pairs returns the empty
list and get_ticker_data returns the empty dict (both functions are total,
so no exception reaches the caller), and on a 200 status each returns the
decoded body unchanged. -/
theorem C4_soft_failure (r1 : HttpResponse (List String))
    (r2 : HttpResponse TickerData) :
    (r1.status_code ≠ 200 → get_currency_pairs r1 = []) ∧
    (r1.status_code = 200 → get_currency_pairs r1 = r1.body) ∧
    (r2.status_code ≠ 200 → get_ticker_data r2 = emptyTicker) ∧
    (r2.status_code = 200 → get_ticker_data r2 = r2.body) := by
  refine ⟨?_, ?_, ?_, ?_⟩ <;> intro h <;>
    simp [get_currency_pairs, get_ticker_data, h]

/-- Witness for C4 at a failed (404 and 500) and a successful (200)
response for each endpoint. -/
theorem C4_soft_failure_witness :
    get_currency_pairs ⟨404, ["btcusd"]⟩ = [] ∧
    get_currency_pairs ⟨200, ["btcusd"]⟩ = ["btcusd"] ∧
    get_ticker_data ⟨500, ⟨some 1, some 2, some [3]⟩⟩ = emptyTicker ∧
    get_ticker_data ⟨200, ⟨some 1, some 2, some [3]⟩⟩
      = ⟨some 1, some 2, some [3]⟩ :=
  ⟨(C4_soft_failure ⟨404, ["btcusd"]⟩ ⟨500, ⟨some 1, some 2, some [3]⟩⟩).1
      (by decide),
   (C4_soft_failure ⟨200, ["btcusd"]⟩ ⟨500, ⟨some 1, some 2, some [3]⟩⟩).2.1
      rfl,
   ((C4_soft_failure ⟨404, ["btcusd"]⟩
      ⟨500, ⟨some 1, some 2, some [3]⟩⟩).2.2.1) (by decide),
   ((C4_soft_failure ⟨404, ["btcusd"]⟩
      ⟨200, ⟨some 1, some 2, some [3]⟩⟩).2.2.2) rfl⟩

/-- Python bool() applied to a string, as argparse does for the value
given to the debug flag at line 196 of src/main.py (type=bool): a string
is truthy exactly when it is non-empty. -/
def pyBool (s : String) : Bool := s != ""

/-- The debug value produced by the CLI: the default False when the debug
flag is omitted, otherwise bool() of the supplied string. -/
def parse_debug (arg : Option String) : Bool :=
  match arg with
  | none => false
  | some s => pyBool s

/-- Claim C9: the CLI debug value is False when the flag is omitted or
given the empty string, and True for every non-empty string value,
including the strings False and 0. -/
theorem C9_debug_flag :
    parse_debug none = false ∧ parse_debug (some "") = false ∧
    ∀ s : String, s ≠ "" → parse_debug (some s) = true := by
  refine ⟨rfl, by decide, ?_⟩
  intro s hs
  simp [parse_debug, pyBool, hs]

/-- Witness for C9 at the concrete flag values False and 0, both of which
turn debug mode on. -/
theorem C9_debug_flag_witness :
    parse_debug (some "False") = true ∧ parse_debug (some "0") = true :=
  ⟨C9_debug_flag.2.2 "False" (by decide),
   C9_debug_flag.2.2 "0" (by decide)⟩

end Gemini
